import Mathlib

/-!
Shallow embedding of the erb-client wallet and query layer
(src/client/worm_client.go) and proofs about its signing and
error-handling behaviour.

Modelling conventions:
- Go strings are Lean String values; Go byte slices are List Nat with
  every element below 256.
- The external cryptographic primitives (crypto.HexToECDSA, crypto.Sign
  from go-ethereum, tools.SignHash from wormholes-client/tools) live
  outside this repository; the embedding is parametric in a CryptoBackend
  providing them, and private keys are abstracted as Nat handles.
- Go functions returning (value, error) pairs are modelled as
  Option value x Option error pairs, so that a nil result together with a
  nil error is representable and claims about that shape are meaningful.
- The RPC connection is abstracted as a function from the request
  arguments to the decoded response: Except String (Option result), where
  Except.error is a failed call and Option.none is a JSON null result.
-/

namespace ErbClient

/-- Errors surfaced by the query operations: the distinguished not-found
value (ethereum.NotFound in go-ethereum) or a remote RPC failure carrying
its message. -/
inductive ClientErr
  | notFound
  | remote (e : String)
deriving DecidableEq

/-- Abstract interface to the external cryptographic primitives used by
the wallet code: hexToECDSA models crypto.HexToECDSA (private-key parsing;
parsed keys abstracted as Nat handles), signHash models tools.SignHash
(the fixed network-wide digest of a byte sequence), and sign models
crypto.Sign (the ECDSA signing primitive, which on success returns a
65-byte recoverable signature whose byte 64 is the raw 0/1 recovery id). -/
structure CryptoBackend where
  hexToECDSA : String → Except String Nat
  signHash : List Nat → List Nat
  sign : List Nat → Nat → Except String (List Nat)

/-- UTF-8 encoding of one character, as the list of its byte values. -/
def charUtf8 (c : Char) : List Nat :=
  let n := c.toNat
  if n < 0x80 then [n]
  else if n < 0x800 then [0xC0 + n / 0x40, 0x80 + n % 0x40]
  else if n < 0x10000 then [0xE0 + n / 0x1000, 0x80 + (n / 0x40) % 0x40, 0x80 + n % 0x40]
  else [0xF0 + n / 0x40000, 0x80 + (n / 0x1000) % 0x40, 0x80 + (n / 0x40) % 0x40, 0x80 + n % 0x40]

/-- The byte slice obtained from a Go string, as in the conversion
[]byte(msg): the UTF-8 bytes of the string. -/
def strBytes (s : String) : List Nat :=
  s.data.flatMap charUtf8

/-- Models the Go statement signature[64] += 27. Go byte arithmetic wraps
modulo 256; on the 65-byte signatures produced by crypto.Sign the raw
recovery id 0/1 at index 64 becomes 27/28. -/
def bump27 (sig : List Nat) : List Nat :=
  sig.set 64 ((sig.getD 64 0 + 27) % 256)

/-- Lowercase hexadecimal digit for a value below 16. -/
def hexDigit (n : Nat) : Char :=
  if n < 10 then Char.ofNat (48 + n) else Char.ofNat (87 + n)

/-- Two lowercase hexadecimal digits of one byte. -/
def byteHex (n : Nat) : String :=
  String.mk [hexDigit (n % 256 / 16), hexDigit (n % 16)]

/-- Models hexutil.Encode from go-ethereum: the 0x-prefixed lowercase
hexadecimal encoding of a byte slice. -/
def hexEncode (bs : List Nat) : String :=
  "0x" ++ String.join (bs.map byteHex)

/-- Result bytes of a role-signing operation. The json constructor models
the bytes produced by json.Marshal of the role struct, kept as the ordered
key-value mapping it serializes. Modelled from the spec: the role structs
(types.Buyer, types.Seller1, types.Seller2, types.ExchangerAuth) are
declared in the external wormholes-client/types package and are not part
of this repository; the spec describes the produced payload as a key-value
mapping of the role field names plus a signature field. The raw
constructor models the bytes []byte(s) of a plain string. -/
inductive Payload
  | json (kvs : List (String × String))
  | raw (s : String)
deriving DecidableEq

/-- True exactly on payloads that are key-value mappings. -/
def Payload.isJson : Payload → Bool
  | .json _ => true
  | .raw _ => false

/-- The key list of a payload: the field names of a mapping, empty for a
raw string payload. -/
def Payload.keys : Payload → List String
  | .json kvs => kvs.map Prod.fst
  | .raw _ => []

/-- The Wallet struct: holds one private key string. -/
structure Wallet where
  priKey : String
deriving DecidableEq

/-- The Wormholes client struct: an embedded Wallet plus an rpc connection
pointer, abstracted as an optional Nat handle (none models a nil
connection). -/
structure Wormholes where
  wallet : Wallet
  c : Option Nat
deriving DecidableEq

/-- NewClient, parametric in the external rpc.Dial (dial). An empty rawurl
yields a wallet-only client with nil connection; otherwise dial is
consulted and its client stored. On dial failure Go calls log.Fatalf and
the dead return statement produces the zero-value Wormholes, transcribed
here as the empty-key, nil-connection value. -/
def newClient (dial : String → Except String Nat) (priKey rawurl : String) : Wormholes :=
  if rawurl = "" then
    ⟨⟨priKey⟩, none⟩
  else
    match dial rawurl with
    | .error _ => ⟨⟨""⟩, none⟩
    | .ok client => ⟨⟨priKey⟩, some client⟩

/-- The signable message of SignBuyer, from the source line
msg := amount + nftAddress + exchanger + blockNumber + seller. -/
def buyerMsg (amount nftAddress exchanger blockNumber seller : String) : String :=
  amount ++ nftAddress ++ exchanger ++ blockNumber ++ seller

/-- The signable message of SignSeller1, from the source line
msg := amount + nftAddress + exchanger + blockNumber. -/
def seller1Msg (amount nftAddress exchanger blockNumber : String) : String :=
  amount ++ nftAddress ++ exchanger ++ blockNumber

/-- The signable message of SignSeller2, from the source line
msg := amount + royalty + metaURL + exclusiveFlag + exchanger + blockNumber. -/
def seller2Msg (amount royalty metaURL exclusiveFlag exchanger blockNumber : String) : String :=
  amount ++ royalty ++ metaURL ++ exclusiveFlag ++ exchanger ++ blockNumber

/-- The signable message of SignExchanger, from the source line
msg := exchangerOwner + to + blockNumber. The Go parameter named to is
rendered toAddr here because to is a reserved token in Lean. -/
def exchangerMsg (exchangerOwner toAddr blockNumber : String) : String :=
  exchangerOwner ++ toAddr ++ blockNumber

/-- The signable message of SignDelegate, from the source line
msg := address + pledgeAcoount. -/
def delegateMsg (address pledgeAcoount : String) : String :=
  address ++ pledgeAcoount

/-- Wallet.Sign: parses the priKey argument (not the stored key), signs
SignHash(data) with it, adds 27 to signature[64] and returns the signature
bytes. Any error is returned with a nil result. -/
def Wallet.Sign (B : CryptoBackend) (w : Wallet) (data : List Nat) (priKey : String) :
    Option (List Nat) × Option String :=
  match B.hexToECDSA priKey with
  | .error e => (none, some e)
  | .ok key =>
    match B.sign (B.signHash data) key with
    | .error e => (none, some e)
    | .ok signature => (some (bump27 signature), none)

/-- Wallet.SignBuyer: parses the stored key, signs the digest of the
buyer message, normalizes the recovery byte and marshals the Buyer struct
with the hex-encoded signature. -/
def Wallet.SignBuyer (B : CryptoBackend) (w : Wallet)
    (amount nftAddress exchanger blockNumber seller : String) :
    Option Payload × Option String :=
  match B.hexToECDSA w.priKey with
  | .error e => (none, some e)
  | .ok key =>
    match B.sign (B.signHash (strBytes (buyerMsg amount nftAddress exchanger blockNumber seller))) key with
    | .error e => (none, some e)
    | .ok signature =>
      (some (.json [("Amount", amount), ("NFTAddress", nftAddress),
        ("Exchanger", exchanger), ("BlockNumber", blockNumber),
        ("Seller", seller), ("Sig", hexEncode (bump27 signature))]), none)

/-- Wallet.SignSeller1: parses the stored key, signs the digest of the
minted-seller message, normalizes the recovery byte and marshals the
Seller1 struct with the hex-encoded signature. -/
def Wallet.SignSeller1 (B : CryptoBackend) (w : Wallet)
    (amount nftAddress exchanger blockNumber : String) :
    Option Payload × Option String :=
  match B.hexToECDSA w.priKey with
  | .error e => (none, some e)
  | .ok key =>
    match B.sign (B.signHash (strBytes (seller1Msg amount nftAddress exchanger blockNumber))) key with
    | .error e => (none, some e)
    | .ok signature =>
      (some (.json [("Amount", amount), ("NFTAddress", nftAddress),
        ("Exchanger", exchanger), ("BlockNumber", blockNumber),
        ("Sig", hexEncode (bump27 signature))]), none)

/-- Wallet.SignSeller2: parses the stored key, signs the digest of the
unminted-seller message, normalizes the recovery byte and marshals the
Seller2 struct with the hex-encoded signature. -/
def Wallet.SignSeller2 (B : CryptoBackend) (w : Wallet)
    (amount royalty metaURL exclusiveFlag exchanger blockNumber : String) :
    Option Payload × Option String :=
  match B.hexToECDSA w.priKey with
  | .error e => (none, some e)
  | .ok key =>
    match B.sign (B.signHash (strBytes (seller2Msg amount royalty metaURL exclusiveFlag exchanger blockNumber))) key with
    | .error e => (none, some e)
    | .ok signature =>
      (some (.json [("Amount", amount), ("Royalty", royalty),
        ("MetaURL", metaURL), ("ExclusiveFlag", exclusiveFlag),
        ("Exchanger", exchanger), ("BlockNumber", blockNumber),
        ("Sig", hexEncode (bump27 signature))]), none)

/-- Wallet.SignExchanger: parses the stored key, signs the digest of the
exchanger-authorization message, normalizes the recovery byte and marshals
the ExchangerAuth struct with the hex-encoded signature. -/
def Wallet.SignExchanger (B : CryptoBackend) (w : Wallet)
    (exchangerOwner toAddr blockNumber : String) :
    Option Payload × Option String :=
  match B.hexToECDSA w.priKey with
  | .error e => (none, some e)
  | .ok key =>
    match B.sign (B.signHash (strBytes (exchangerMsg exchangerOwner toAddr blockNumber))) key with
    | .error e => (none, some e)
    | .ok signature =>
      (some (.json [("ExchangerOwner", exchangerOwner), ("To", toAddr),
        ("BlockNumber", blockNumber),
        ("Sig", hexEncode (bump27 signature))]), none)

/-- Wallet.SignDelegate: parses the stored key, signs the digest of the
delegate message, normalizes the recovery byte and returns the bytes of
the hex-encoded signature string directly, with no surrounding struct. -/
def Wallet.SignDelegate (B : CryptoBackend) (w : Wallet)
    (address pledgeAcoount : String) :
    Option Payload × Option String :=
  match B.hexToECDSA w.priKey with
  | .error e => (none, some e)
  | .ok key =>
    match B.sign (B.signHash (strBytes (delegateMsg address pledgeAcoount))) key with
    | .error e => (none, some e)
    | .ok signature =>
      (some (.raw (hexEncode (bump27 signature))), none)

/-- Promotion of the embedded Wallet method to the Wormholes client, as Go
method promotion provides it. -/
def Wormholes.Sign (B : CryptoBackend) (worm : Wormholes) (data : List Nat) (priKey : String) :
    Option (List Nat) × Option String :=
  Wallet.Sign B worm.wallet data priKey

/-- Promotion of Wallet.SignBuyer to the Wormholes client. -/
def Wormholes.SignBuyer (B : CryptoBackend) (worm : Wormholes)
    (amount nftAddress exchanger blockNumber seller : String) :
    Option Payload × Option String :=
  Wallet.SignBuyer B worm.wallet amount nftAddress exchanger blockNumber seller

/-- Promotion of Wallet.SignSeller1 to the Wormholes client. -/
def Wormholes.SignSeller1 (B : CryptoBackend) (worm : Wormholes)
    (amount nftAddress exchanger blockNumber : String) :
    Option Payload × Option String :=
  Wallet.SignSeller1 B worm.wallet amount nftAddress exchanger blockNumber

/-- Promotion of Wallet.SignSeller2 to the Wormholes client. -/
def Wormholes.SignSeller2 (B : CryptoBackend) (worm : Wormholes)
    (amount royalty metaURL exclusiveFlag exchanger blockNumber : String) :
    Option Payload × Option String :=
  Wallet.SignSeller2 B worm.wallet amount royalty metaURL exclusiveFlag exchanger blockNumber

/-- Promotion of Wallet.SignExchanger to the Wormholes client. -/
def Wormholes.SignExchanger (B : CryptoBackend) (worm : Wormholes)
    (exchangerOwner toAddr blockNumber : String) :
    Option Payload × Option String :=
  Wallet.SignExchanger B worm.wallet exchangerOwner toAddr blockNumber

/-- Promotion of Wallet.SignDelegate to the Wormholes client. -/
def Wormholes.SignDelegate (B : CryptoBackend) (worm : Wormholes)
    (address pledgeAcoount : String) :
    Option Payload × Option String :=
  Wallet.SignDelegate B worm.wallet address pledgeAcoount

/-- TransactionReceipt: the RPC channel is abstracted as call, mapping the
transaction hash to either a failed call or a decoded optional receipt
(a JSON null decodes to none). Transcribes the source: when the call
succeeds and the receipt is nil, return ethereum.NotFound; otherwise
return the pair (r, err) unchanged. -/
def TransactionReceipt (α : Type) (call : String → Except String (Option α))
    (txHash : String) : Option α × Option ClientErr :=
  match call txHash with
  | .error e => (none, some (.remote e))
  | .ok none => (none, some .notFound)
  | .ok (some r) => (some r, none)

/-- GetValidators: same null-to-NotFound convention as
TransactionReceipt, over the eth_getValidator call at a block number. -/
def GetValidators (α : Type) (call : Int → Except String (Option α))
    (blockNumber : Int) : Option α × Option ClientErr :=
  match call blockNumber with
  | .error e => (none, some (.remote e))
  | .ok none => (none, some .notFound)
  | .ok (some r) => (some r, none)

/-- GetAccountInfo: same null-to-NotFound convention, over the
eth_getAccountInfo call at an address and block number. -/
def GetAccountInfo (α : Type) (call : String → Int → Except String (Option α))
    (address : String) (block : Int) : Option α × Option ClientErr :=
  match call address block with
  | .error e => (none, some (.remote e))
  | .ok none => (none, some .notFound)
  | .ok (some r) => (some r, none)

/-- GetBlockBeneficiaryAddressByNumber: same null-to-NotFound convention,
over the eth_getBlockBeneficiaryAddressByNumber call at a block number. -/
def GetBlockBeneficiaryAddressByNumber (α : Type) (call : Int → Except String (Option α))
    (block : Int) : Option α × Option ClientErr :=
  match call block with
  | .error e => (none, some (.remote e))
  | .ok none => (none, some .notFound)
  | .ok (some r) => (some r, none)

/-- Concrete backend used to evaluate the definitions on closed inputs:
key parsing succeeds on any nonempty key string, the digest is a fixed
32-byte value, and signing returns a fixed 65-byte signature whose raw
recovery id is 1. -/
def testBackend : CryptoBackend where
  hexToECDSA := fun k => if k = "" then .error "invalid hex data for private key" else .ok 7
  signHash := fun _ => List.replicate 32 5
  sign := fun _ _ => .ok (List.replicate 64 9 ++ [1])

/-- Concrete backend whose key parsing always fails, exercising the
malformed-key error path. -/
def failBackend : CryptoBackend where
  hexToECDSA := fun _ => .error "invalid length, need 256 bits"
  signHash := fun _ => List.replicate 32 5
  sign := fun _ _ => .ok (List.replicate 64 9 ++ [1])

/-- Right cancellation of string concatenation: equal suffixes can be
removed. -/
theorem append_cancel_r {a b c : String} (h : a ++ c = b ++ c) : a = b := by
  have h2 : a.data ++ c.data = b.data ++ c.data := by
    have h3 := congrArg String.data h
    simpa [String.data_append] using h3
  exact String.ext (List.append_cancel_right h2)

/-- Left cancellation of string concatenation: equal prefixes can be
removed. -/
theorem append_cancel_l {a b c : String} (h : a ++ b = a ++ c) : b = c := by
  have h2 : a.data ++ b.data = a.data ++ c.data := by
    have h3 := congrArg String.data h
    simpa [String.data_append] using h3
  exact String.ext (List.append_cancel_left h2)

/-- Appending the empty string on the right is the identity. -/
theorem append_str_empty (s : String) : s ++ "" = s := by
  apply String.ext
  simp [String.data_append]

/-- The recovery-byte normalization does not change the signature
length. -/
theorem bump27_length (sig : List Nat) : (bump27 sig).length = sig.length := by
  simp [bump27]

/-- On a 65-byte signature with a raw 0/1 recovery id, the normalization
adds exactly 27 to byte 64 with no wraparound. -/
theorem bump27_getD (sig : List Nat) (h : sig.length = 65) (h2 : sig.getD 64 0 < 2) :
    (bump27 sig).getD 64 0 = sig.getD 64 0 + 27 := by
  unfold bump27
  rw [List.getD_eq_getElem?_getD, List.getElem?_set_self]
  · simp only [Option.getD_some]
    omega
  · omega

/-- Claim C1: for every role-signing operation, once the private key
parses, the bytes handed to the signing primitive are the fixed
network-wide digest SignHash of the plain concatenation of the field
strings in declared order with no delimiter, and the operation result is
fully determined by the outcome of that single signing call. -/
theorem sign_digest_is_concat :
    (∀ (B : CryptoBackend) (w : Wallet) (amount nftAddress exchanger blockNumber seller : String)
       (key : Nat), B.hexToECDSA w.priKey = .ok key →
       Wallet.SignBuyer B w amount nftAddress exchanger blockNumber seller =
         match B.sign (B.signHash (strBytes (buyerMsg amount nftAddress exchanger blockNumber seller))) key with
         | .error e => (none, some e)
         | .ok signature =>
           (some (.json [("Amount", amount), ("NFTAddress", nftAddress),
             ("Exchanger", exchanger), ("BlockNumber", blockNumber),
             ("Seller", seller), ("Sig", hexEncode (bump27 signature))]), none)) ∧
    (∀ (B : CryptoBackend) (w : Wallet) (amount nftAddress exchanger blockNumber : String)
       (key : Nat), B.hexToECDSA w.priKey = .ok key →
       Wallet.SignSeller1 B w amount nftAddress exchanger blockNumber =
         match B.sign (B.signHash (strBytes (seller1Msg amount nftAddress exchanger blockNumber))) key with
         | .error e => (none, some e)
         | .ok signature =>
           (some (.json [("Amount", amount), ("NFTAddress", nftAddress),
             ("Exchanger", exchanger), ("BlockNumber", blockNumber),
             ("Sig", hexEncode (bump27 signature))]), none)) ∧
    (∀ (B : CryptoBackend) (w : Wallet) (amount royalty metaURL exclusiveFlag exchanger blockNumber : String)
       (key : Nat), B.hexToECDSA w.priKey = .ok key →
       Wallet.SignSeller2 B w amount royalty metaURL exclusiveFlag exchanger blockNumber =
         match B.sign (B.signHash (strBytes (seller2Msg amount royalty metaURL exclusiveFlag exchanger blockNumber))) key with
         | .error e => (none, some e)
         | .ok signature =>
           (some (.json [("Amount", amount), ("Royalty", royalty),
             ("MetaURL", metaURL), ("ExclusiveFlag", exclusiveFlag),
             ("Exchanger", exchanger), ("BlockNumber", blockNumber),
             ("Sig", hexEncode (bump27 signature))]), none)) ∧
    (∀ (B : CryptoBackend) (w : Wallet) (exchangerOwner toAddr blockNumber : String)
       (key : Nat), B.hexToECDSA w.priKey = .ok key →
       Wallet.SignExchanger B w exchangerOwner toAddr blockNumber =
         match B.sign (B.signHash (strBytes (exchangerMsg exchangerOwner toAddr blockNumber))) key with
         | .error e => (none, some e)
         | .ok signature =>
           (some (.json [("ExchangerOwner", exchangerOwner), ("To", toAddr),
             ("BlockNumber", blockNumber),
             ("Sig", hexEncode (bump27 signature))]), none)) ∧
    (∀ (B : CryptoBackend) (w : Wallet) (address pledgeAcoount : String)
       (key : Nat), B.hexToECDSA w.priKey = .ok key →
       Wallet.SignDelegate B w address pledgeAcoount =
         match B.sign (B.signHash (strBytes (delegateMsg address pledgeAcoount))) key with
         | .error e => (none, some e)
         | .ok signature =>
           (some (.raw (hexEncode (bump27 signature))), none)) := by
  refine ⟨?_, ?_, ?_, ?_, ?_⟩
  · intro B w amount nftAddress exchanger blockNumber seller key h
    simp only [Wallet.SignBuyer, h]
  · intro B w amount nftAddress exchanger blockNumber key h
    simp only [Wallet.SignSeller1, h]
  · intro B w amount royalty metaURL exclusiveFlag exchanger blockNumber key h
    simp only [Wallet.SignSeller2, h]
  · intro B w exchangerOwner toAddr blockNumber key h
    simp only [Wallet.SignExchanger, h]
  · intro B w address pledgeAcoount key h
    simp only [Wallet.SignDelegate, h]

/-- Witness for sign_digest_is_concat at the concrete test backend and
the buyer field tuple of the spec scenario. -/
theorem sign_digest_is_concat_witness :
    Wallet.SignBuyer testBackend ⟨"4fc"⟩ "0xde0b6b3a7640000" "" "0x8b07" "0xa" "" =
      match testBackend.sign (testBackend.signHash (strBytes (buyerMsg "0xde0b6b3a7640000" "" "0x8b07" "0xa" ""))) 7 with
      | .error e => (none, some e)
      | .ok signature =>
        (some (.json [("Amount", "0xde0b6b3a7640000"), ("NFTAddress", ""),
          ("Exchanger", "0x8b07"), ("BlockNumber", "0xa"),
          ("Seller", ""), ("Sig", hexEncode (bump27 signature))]), none) :=
  sign_digest_is_concat.1 testBackend ⟨"4fc"⟩ "0xde0b6b3a7640000" "" "0x8b07" "0xa" "" 7 rfl

/-- Claim C2 counterexample: at the concrete field tuple of the spec
scenario, the message signed by SignBuyer with the seller field set to
the empty string is equal to, not different from, the message signed by
SignSeller1 on the same remaining fields. -/
theorem empty_field_elision_cex :
    buyerMsg "0xde0b6b3a7640000" "0x0000000000000000000000000000000000000002"
        "0x8b07aff2327a3B7e2876D899caFac99f7AE16B10" "0x677" "" =
      seller1Msg "0xde0b6b3a7640000" "0x0000000000000000000000000000000000000002"
        "0x8b07aff2327a3B7e2876D899caFac99f7AE16B10" "0x677" := by
  decide

/-- Claim C2 (amended): an empty-string field in the final position is
erased by the delimiter-free concatenation, so the message built with
that field empty coincides with the message of the schema with the field
absent; in particular SignBuyer with an empty seller signs exactly the
same message, and hence the same digest, as SignSeller1 on the remaining
fields, so distinct schemas can produce the same signable message. -/
theorem empty_field_elision (B : CryptoBackend)
    (amount nftAddress exchanger blockNumber : String) :
    buyerMsg amount nftAddress exchanger blockNumber "" =
      seller1Msg amount nftAddress exchanger blockNumber ∧
    B.signHash (strBytes (buyerMsg amount nftAddress exchanger blockNumber "")) =
      B.signHash (strBytes (seller1Msg amount nftAddress exchanger blockNumber)) := by
  have h : buyerMsg amount nftAddress exchanger blockNumber "" =
      seller1Msg amount nftAddress exchanger blockNumber := by
    unfold buyerMsg seller1Msg
    exact append_str_empty _
  exact ⟨h, by rw [h]⟩

/-- Claim C3: mutating exactly one field while all other fields stay
fixed always changes the concatenated signable message, for every role
schema of the wallet. -/
theorem single_field_mutation_changes_message :
    (∀ a n e b s a' n' e' b' s' : String,
       ((a ≠ a' ∧ n = n' ∧ e = e' ∧ b = b' ∧ s = s') ∨
        (a = a' ∧ n ≠ n' ∧ e = e' ∧ b = b' ∧ s = s') ∨
        (a = a' ∧ n = n' ∧ e ≠ e' ∧ b = b' ∧ s = s') ∨
        (a = a' ∧ n = n' ∧ e = e' ∧ b ≠ b' ∧ s = s') ∨
        (a = a' ∧ n = n' ∧ e = e' ∧ b = b' ∧ s ≠ s')) →
       buyerMsg a n e b s ≠ buyerMsg a' n' e' b' s') ∧
    (∀ a n e b a' n' e' b' : String,
       ((a ≠ a' ∧ n = n' ∧ e = e' ∧ b = b') ∨
        (a = a' ∧ n ≠ n' ∧ e = e' ∧ b = b') ∨
        (a = a' ∧ n = n' ∧ e ≠ e' ∧ b = b') ∨
        (a = a' ∧ n = n' ∧ e = e' ∧ b ≠ b')) →
       seller1Msg a n e b ≠ seller1Msg a' n' e' b') ∧
    (∀ a r m x e b a' r' m' x' e' b' : String,
       ((a ≠ a' ∧ r = r' ∧ m = m' ∧ x = x' ∧ e = e' ∧ b = b') ∨
        (a = a' ∧ r ≠ r' ∧ m = m' ∧ x = x' ∧ e = e' ∧ b = b') ∨
        (a = a' ∧ r = r' ∧ m ≠ m' ∧ x = x' ∧ e = e' ∧ b = b') ∨
        (a = a' ∧ r = r' ∧ m = m' ∧ x ≠ x' ∧ e = e' ∧ b = b') ∨
        (a = a' ∧ r = r' ∧ m = m' ∧ x = x' ∧ e ≠ e' ∧ b = b') ∨
        (a = a' ∧ r = r' ∧ m = m' ∧ x = x' ∧ e = e' ∧ b ≠ b')) →
       seller2Msg a r m x e b ≠ seller2Msg a' r' m' x' e' b') ∧
    (∀ o t b o' t' b' : String,
       ((o ≠ o' ∧ t = t' ∧ b = b') ∨
        (o = o' ∧ t ≠ t' ∧ b = b') ∨
        (o = o' ∧ t = t' ∧ b ≠ b')) →
       exchangerMsg o t b ≠ exchangerMsg o' t' b') ∧
    (∀ d p d' p' : String,
       ((d ≠ d' ∧ p = p') ∨ (d = d' ∧ p ≠ p')) →
       delegateMsg d p ≠ delegateMsg d' p') := by
  refine ⟨?_, ?_, ?_, ?_, ?_⟩
  · intro a n e b s a' n' e' b' s' h heq
    unfold buyerMsg at heq
    rcases h with ⟨h1, rfl, rfl, rfl, rfl⟩ | ⟨rfl, h1, rfl, rfl, rfl⟩ |
      ⟨rfl, rfl, h1, rfl, rfl⟩ | ⟨rfl, rfl, rfl, h1, rfl⟩ | ⟨rfl, rfl, rfl, rfl, h1⟩
    · exact h1 (append_cancel_r (append_cancel_r (append_cancel_r (append_cancel_r heq))))
    · exact h1 (append_cancel_l (append_cancel_r (append_cancel_r (append_cancel_r heq))))
    · exact h1 (append_cancel_l (append_cancel_r (append_cancel_r heq)))
    · exact h1 (append_cancel_l (append_cancel_r heq))
    · exact h1 (append_cancel_l heq)
  · intro a n e b a' n' e' b' h heq
    unfold seller1Msg at heq
    rcases h with ⟨h1, rfl, rfl, rfl⟩ | ⟨rfl, h1, rfl, rfl⟩ |
      ⟨rfl, rfl, h1, rfl⟩ | ⟨rfl, rfl, rfl, h1⟩
    · exact h1 (append_cancel_r (append_cancel_r (append_cancel_r heq)))
    · exact h1 (append_cancel_l (append_cancel_r (append_cancel_r heq)))
    · exact h1 (append_cancel_l (append_cancel_r heq))
    · exact h1 (append_cancel_l heq)
  · intro a r m x e b a' r' m' x' e' b' h heq
    unfold seller2Msg at heq
    rcases h with ⟨h1, rfl, rfl, rfl, rfl, rfl⟩ | ⟨rfl, h1, rfl, rfl, rfl, rfl⟩ |
      ⟨rfl, rfl, h1, rfl, rfl, rfl⟩ | ⟨rfl, rfl, rfl, h1, rfl, rfl⟩ |
      ⟨rfl, rfl, rfl, rfl, h1, rfl⟩ | ⟨rfl, rfl, rfl, rfl, rfl, h1⟩
    · exact h1 (append_cancel_r (append_cancel_r (append_cancel_r (append_cancel_r (append_cancel_r heq)))))
    · exact h1 (append_cancel_l (append_cancel_r (append_cancel_r (append_cancel_r (append_cancel_r heq)))))
    · exact h1 (append_cancel_l (append_cancel_r (append_cancel_r (append_cancel_r heq))))
    · exact h1 (append_cancel_l (append_cancel_r (append_cancel_r heq)))
    · exact h1 (append_cancel_l (append_cancel_r heq))
    · exact h1 (append_cancel_l heq)
  · intro o t b o' t' b' h heq
    unfold exchangerMsg at heq
    rcases h with ⟨h1, rfl, rfl⟩ | ⟨rfl, h1, rfl⟩ | ⟨rfl, rfl, h1⟩
    · exact h1 (append_cancel_r (append_cancel_r heq))
    · exact h1 (append_cancel_l (append_cancel_r heq))
    · exact h1 (append_cancel_l heq)
  · intro d p d' p' h heq
    unfold delegateMsg at heq
    rcases h with ⟨h1, rfl⟩ | ⟨rfl, h1⟩
    · exact h1 (append_cancel_r heq)
    · exact h1 (append_cancel_l heq)

/-- Witness for single_field_mutation_changes_message: the spec scenario
inputs with the seller field empty versus set to 0x00 yield different
buyer messages. -/
theorem single_field_mutation_changes_message_witness :
    buyerMsg "0xde0b6b3a7640000" "0x0000000000000000000000000000000000000002"
        "0x8b07aff2327a3B7e2876D899caFac99f7AE16B10" "0x677" "" ≠
      buyerMsg "0xde0b6b3a7640000" "0x0000000000000000000000000000000000000002"
        "0x8b07aff2327a3B7e2876D899caFac99f7AE16B10" "0x677" "0x00" :=
  single_field_mutation_changes_message.1 _ _ _ _ _ _ _ _ _ _
    (Or.inr (Or.inr (Or.inr (Or.inr ⟨rfl, rfl, rfl, rfl, by decide⟩))))

/-- Claim C4: every successful signing operation returns, or embeds in
its payload, the primitive signature with byte 64 increased by 27, and
on the 65-byte signatures with raw 0/1 recovery id produced by the
primitive this lands the recovery byte exactly in the 27/28 range. -/
theorem recovery_id_normalized :
    (∀ sig : List Nat, sig.length = 65 → sig.getD 64 0 < 2 →
       (bump27 sig).length = 65 ∧ (bump27 sig).getD 64 0 = sig.getD 64 0 + 27) ∧
    (∀ (B : CryptoBackend) (w : Wallet) (data : List Nat) (pk : String) (key : Nat) (sig : List Nat),
       B.hexToECDSA pk = .ok key → B.sign (B.signHash data) key = .ok sig →
       Wallet.Sign B w data pk = (some (bump27 sig), none)) ∧
    (∀ (B : CryptoBackend) (w : Wallet) (a n e b s : String) (key : Nat) (sig : List Nat),
       B.hexToECDSA w.priKey = .ok key →
       B.sign (B.signHash (strBytes (buyerMsg a n e b s))) key = .ok sig →
       Wallet.SignBuyer B w a n e b s =
         (some (.json [("Amount", a), ("NFTAddress", n), ("Exchanger", e),
           ("BlockNumber", b), ("Seller", s), ("Sig", hexEncode (bump27 sig))]), none)) ∧
    (∀ (B : CryptoBackend) (w : Wallet) (a n e b : String) (key : Nat) (sig : List Nat),
       B.hexToECDSA w.priKey = .ok key →
       B.sign (B.signHash (strBytes (seller1Msg a n e b))) key = .ok sig →
       Wallet.SignSeller1 B w a n e b =
         (some (.json [("Amount", a), ("NFTAddress", n), ("Exchanger", e),
           ("BlockNumber", b), ("Sig", hexEncode (bump27 sig))]), none)) ∧
    (∀ (B : CryptoBackend) (w : Wallet) (a r m x e b : String) (key : Nat) (sig : List Nat),
       B.hexToECDSA w.priKey = .ok key →
       B.sign (B.signHash (strBytes (seller2Msg a r m x e b))) key = .ok sig →
       Wallet.SignSeller2 B w a r m x e b =
         (some (.json [("Amount", a), ("Royalty", r), ("MetaURL", m),
           ("ExclusiveFlag", x), ("Exchanger", e), ("BlockNumber", b),
           ("Sig", hexEncode (bump27 sig))]), none)) ∧
    (∀ (B : CryptoBackend) (w : Wallet) (o t b : String) (key : Nat) (sig : List Nat),
       B.hexToECDSA w.priKey = .ok key →
       B.sign (B.signHash (strBytes (exchangerMsg o t b))) key = .ok sig →
       Wallet.SignExchanger B w o t b =
         (some (.json [("ExchangerOwner", o), ("To", t), ("BlockNumber", b),
           ("Sig", hexEncode (bump27 sig))]), none)) ∧
    (∀ (B : CryptoBackend) (w : Wallet) (d p : String) (key : Nat) (sig : List Nat),
       B.hexToECDSA w.priKey = .ok key →
       B.sign (B.signHash (strBytes (delegateMsg d p))) key = .ok sig →
       Wallet.SignDelegate B w d p = (some (.raw (hexEncode (bump27 sig))), none)) := by
  refine ⟨?_, ?_, ?_, ?_, ?_, ?_, ?_⟩
  · intro sig h h2
    refine ⟨?_, bump27_getD sig h h2⟩
    rw [bump27_length, h]
  · intro B w data pk key sig h1 h2
    simp only [Wallet.Sign, h1, h2]
  · intro B w a n e b s key sig h1 h2
    simp only [Wallet.SignBuyer, h1, h2]
  · intro B w a n e b key sig h1 h2
    simp only [Wallet.SignSeller1, h1, h2]
  · intro B w a r m x e b key sig h1 h2
    simp only [Wallet.SignSeller2, h1, h2]
  · intro B w o t b key sig h1 h2
    simp only [Wallet.SignExchanger, h1, h2]
  · intro B w d p key sig h1 h2
    simp only [Wallet.SignDelegate, h1, h2]

/-- Witness for recovery_id_normalized at the concrete test backend,
whose fixed signature has raw recovery id 1: the returned recovery byte
is 28. -/
theorem recovery_id_normalized_witness :
    Wallet.Sign testBackend ⟨"4fc"⟩ [0, 1, 2] "4fc" =
      (some (bump27 (List.replicate 64 9 ++ [1])), none) ∧
    (bump27 (List.replicate 64 9 ++ [1])).getD 64 0 = 28 := by
  constructor
  · exact recovery_id_normalized.2.1 testBackend ⟨"4fc"⟩ [0, 1, 2] "4fc" 7
      (List.replicate 64 9 ++ [1]) rfl rfl
  · have h := (recovery_id_normalized.1 (List.replicate 64 9 ++ [1])
      (by decide) (by decide)).2
    rw [h]
    decide

/-- Claim C5: for every field tuple, a successful SignBuyer returns the
key-value payload whose Amount, NFTAddress, Exchanger, BlockNumber and
Seller entries are byte-for-byte the caller-supplied field strings plus
a Sig entry with the 0x-prefixed hex encoding of the signature, and
SignSeller1, SignSeller2 and SignExchanger do likewise for their
declared fields. -/
theorem json_payload_roundtrips_fields :
    (∀ (B : CryptoBackend) (w : Wallet) (a n e b s : String) (key : Nat) (sig : List Nat),
       B.hexToECDSA w.priKey = .ok key →
       B.sign (B.signHash (strBytes (buyerMsg a n e b s))) key = .ok sig →
       Wallet.SignBuyer B w a n e b s =
         (some (.json [("Amount", a), ("NFTAddress", n), ("Exchanger", e),
           ("BlockNumber", b), ("Seller", s), ("Sig", hexEncode (bump27 sig))]), none)) ∧
    (∀ (B : CryptoBackend) (w : Wallet) (a n e b : String) (key : Nat) (sig : List Nat),
       B.hexToECDSA w.priKey = .ok key →
       B.sign (B.signHash (strBytes (seller1Msg a n e b))) key = .ok sig →
       Wallet.SignSeller1 B w a n e b =
         (some (.json [("Amount", a), ("NFTAddress", n), ("Exchanger", e),
           ("BlockNumber", b), ("Sig", hexEncode (bump27 sig))]), none)) ∧
    (∀ (B : CryptoBackend) (w : Wallet) (a r m x e b : String) (key : Nat) (sig : List Nat),
       B.hexToECDSA w.priKey = .ok key →
       B.sign (B.signHash (strBytes (seller2Msg a r m x e b))) key = .ok sig →
       Wallet.SignSeller2 B w a r m x e b =
         (some (.json [("Amount", a), ("Royalty", r), ("MetaURL", m),
           ("ExclusiveFlag", x), ("Exchanger", e), ("BlockNumber", b),
           ("Sig", hexEncode (bump27 sig))]), none)) ∧
    (∀ (B : CryptoBackend) (w : Wallet) (o t b : String) (key : Nat) (sig : List Nat),
       B.hexToECDSA w.priKey = .ok key →
       B.sign (B.signHash (strBytes (exchangerMsg o t b))) key = .ok sig →
       Wallet.SignExchanger B w o t b =
         (some (.json [("ExchangerOwner", o), ("To", t), ("BlockNumber", b),
           ("Sig", hexEncode (bump27 sig))]), none)) := by
  refine ⟨?_, ?_, ?_, ?_⟩
  · intro B w a n e b s key sig h1 h2
    simp only [Wallet.SignBuyer, h1, h2]
  · intro B w a n e b key sig h1 h2
    simp only [Wallet.SignSeller1, h1, h2]
  · intro B w a r m x e b key sig h1 h2
    simp only [Wallet.SignSeller2, h1, h2]
  · intro B w o t b key sig h1 h2
    simp only [Wallet.SignExchanger, h1, h2]

/-- Witness for json_payload_roundtrips_fields at the concrete test
backend and the buyer field tuple of the spec scenario. -/
theorem json_payload_roundtrips_fields_witness :
    Wallet.SignBuyer testBackend ⟨"4fc"⟩ "0xde0b6b3a7640000" "" "0x8b07" "0x677" "" =
      (some (.json [("Amount", "0xde0b6b3a7640000"), ("NFTAddress", ""),
        ("Exchanger", "0x8b07"), ("BlockNumber", "0x677"), ("Seller", ""),
        ("Sig", hexEncode (bump27 (List.replicate 64 9 ++ [1])))]), none) :=
  json_payload_roundtrips_fields.1 testBackend ⟨"4fc"⟩ "0xde0b6b3a7640000" "" "0x8b07" "0x677" ""
    7 (List.replicate 64 9 ++ [1]) rfl rfl

/-- Claim C6 counterexample: at a concrete input the SignDelegate result
is the bare hex-encoded signature string, which is not a key-value
mapping, refuting the claim that every role, delegate included, is
serialized as a self-contained unit of role fields plus signature. -/
theorem delegate_bare_signature_cex :
    (Wallet.SignDelegate testBackend ⟨"4fc"⟩ "address" "pledgeAccount").1 =
      some (Payload.raw (hexEncode (bump27 (List.replicate 64 9 ++ [1])))) ∧
    Payload.isJson (Payload.raw (hexEncode (bump27 (List.replicate 64 9 ++ [1])))) = false :=
  ⟨rfl, rfl⟩

/-- Claim C6 (amended): SignBuyer, SignSeller1, SignSeller2 and
SignExchanger each produce a mapping whose keys are exactly the role
field names plus a Sig entry holding the hex-encoded 0x-prefixed
signature, while SignDelegate alone returns the bare hex-encoded
signature with no surrounding mapping. -/
theorem role_payload_shapes :
    (∀ (B : CryptoBackend) (w : Wallet) (a n e b s : String) (key : Nat) (sig : List Nat),
       B.hexToECDSA w.priKey = .ok key →
       B.sign (B.signHash (strBytes (buyerMsg a n e b s))) key = .ok sig →
       (Wallet.SignBuyer B w a n e b s).1.map Payload.keys =
         some ["Amount", "NFTAddress", "Exchanger", "BlockNumber", "Seller", "Sig"] ∧
       (Wallet.SignBuyer B w a n e b s).1.map Payload.isJson = some true) ∧
    (∀ (B : CryptoBackend) (w : Wallet) (a n e b : String) (key : Nat) (sig : List Nat),
       B.hexToECDSA w.priKey = .ok key →
       B.sign (B.signHash (strBytes (seller1Msg a n e b))) key = .ok sig →
       (Wallet.SignSeller1 B w a n e b).1.map Payload.keys =
         some ["Amount", "NFTAddress", "Exchanger", "BlockNumber", "Sig"] ∧
       (Wallet.SignSeller1 B w a n e b).1.map Payload.isJson = some true) ∧
    (∀ (B : CryptoBackend) (w : Wallet) (a r m x e b : String) (key : Nat) (sig : List Nat),
       B.hexToECDSA w.priKey = .ok key →
       B.sign (B.signHash (strBytes (seller2Msg a r m x e b))) key = .ok sig →
       (Wallet.SignSeller2 B w a r m x e b).1.map Payload.keys =
         some ["Amount", "Royalty", "MetaURL", "ExclusiveFlag", "Exchanger", "BlockNumber", "Sig"] ∧
       (Wallet.SignSeller2 B w a r m x e b).1.map Payload.isJson = some true) ∧
    (∀ (B : CryptoBackend) (w : Wallet) (o t b : String) (key : Nat) (sig : List Nat),
       B.hexToECDSA w.priKey = .ok key →
       B.sign (B.signHash (strBytes (exchangerMsg o t b))) key = .ok sig →
       (Wallet.SignExchanger B w o t b).1.map Payload.keys =
         some ["ExchangerOwner", "To", "BlockNumber", "Sig"] ∧
       (Wallet.SignExchanger B w o t b).1.map Payload.isJson = some true) ∧
    (∀ (B : CryptoBackend) (w : Wallet) (d p : String) (key : Nat) (sig : List Nat),
       B.hexToECDSA w.priKey = .ok key →
       B.sign (B.signHash (strBytes (delegateMsg d p))) key = .ok sig →
       Wallet.SignDelegate B w d p = (some (.raw (hexEncode (bump27 sig))), none) ∧
       (Wallet.SignDelegate B w d p).1.map Payload.isJson = some false) := by
  refine ⟨?_, ?_, ?_, ?_, ?_⟩
  · intro B w a n e b s key sig h1 h2
    simp [Wallet.SignBuyer, h1, h2, Payload.keys, Payload.isJson]
  · intro B w a n e b key sig h1 h2
    simp [Wallet.SignSeller1, h1, h2, Payload.keys, Payload.isJson]
  · intro B w a r m x e b key sig h1 h2
    simp [Wallet.SignSeller2, h1, h2, Payload.keys, Payload.isJson]
  · intro B w o t b key sig h1 h2
    simp [Wallet.SignExchanger, h1, h2, Payload.keys, Payload.isJson]
  · intro B w d p key sig h1 h2
    simp [Wallet.SignDelegate, h1, h2, Payload.isJson]

/-- Witness for role_payload_shapes at the concrete test backend: the
delegate payload is the bare hex signature and not a mapping. -/
theorem role_payload_shapes_witness :
    Wallet.SignDelegate testBackend ⟨"4fc"⟩ "address" "pledgeAccount" =
      (some (.raw (hexEncode (bump27 (List.replicate 64 9 ++ [1])))), none) ∧
    (Wallet.SignDelegate testBackend ⟨"4fc"⟩ "address" "pledgeAccount").1.map Payload.isJson =
      some false :=
  role_payload_shapes.2.2.2.2 testBackend ⟨"4fc"⟩ "address" "pledgeAccount" 7
    (List.replicate 64 9 ++ [1]) rfl rfl

/-- Claim C7: whenever private-key parsing fails, every signing
operation returns the parse error unchanged together with a nil
payload. -/
theorem malformed_key_error_propagation :
    (∀ (B : CryptoBackend) (w : Wallet) (data : List Nat) (pk er : String),
       B.hexToECDSA pk = .error er → Wallet.Sign B w data pk = (none, some er)) ∧
    (∀ (B : CryptoBackend) (w : Wallet) (a n e b s er : String),
       B.hexToECDSA w.priKey = .error er →
       Wallet.SignBuyer B w a n e b s = (none, some er)) ∧
    (∀ (B : CryptoBackend) (w : Wallet) (a n e b er : String),
       B.hexToECDSA w.priKey = .error er →
       Wallet.SignSeller1 B w a n e b = (none, some er)) ∧
    (∀ (B : CryptoBackend) (w : Wallet) (a r m x e b er : String),
       B.hexToECDSA w.priKey = .error er →
       Wallet.SignSeller2 B w a r m x e b = (none, some er)) ∧
    (∀ (B : CryptoBackend) (w : Wallet) (o t b er : String),
       B.hexToECDSA w.priKey = .error er →
       Wallet.SignExchanger B w o t b = (none, some er)) ∧
    (∀ (B : CryptoBackend) (w : Wallet) (d p er : String),
       B.hexToECDSA w.priKey = .error er →
       Wallet.SignDelegate B w d p = (none, some er)) := by
  refine ⟨?_, ?_, ?_, ?_, ?_, ?_⟩
  · intro B w data pk er h
    simp only [Wallet.Sign, h]
  · intro B w a n e b s er h
    simp only [Wallet.SignBuyer, h]
  · intro B w a n e b er h
    simp only [Wallet.SignSeller1, h]
  · intro B w a r m x e b er h
    simp only [Wallet.SignSeller2, h]
  · intro B w o t b er h
    simp only [Wallet.SignExchanger, h]
  · intro B w d p er h
    simp only [Wallet.SignDelegate, h]

/-- Witness for malformed_key_error_propagation at the backend whose key
parsing always fails. -/
theorem malformed_key_error_propagation_witness :
    Wallet.SignBuyer failBackend ⟨"zz"⟩ "0x1" "0x2" "0x3" "0x4" "" =
      (none, some "invalid length, need 256 bits") :=
  malformed_key_error_propagation.2.1 failBackend ⟨"zz"⟩ "0x1" "0x2" "0x3" "0x4" ""
    "invalid length, need 256 bits" rfl

/-- Claim C8: TransactionReceipt yields the not-found error exactly when
the RPC call succeeds with a null receipt, passes a failed call through
as a remote error unchanged, and returns the receipt when present. -/
theorem receipt_notfound_convention :
    (∀ (α : Type) (call : String → Except String (Option α)) (txHash : String),
       (TransactionReceipt α call txHash).2 = some ClientErr.notFound ↔
         call txHash = .ok none) ∧
    (∀ (α : Type) (call : String → Except String (Option α)) (txHash er : String),
       call txHash = .error er →
       TransactionReceipt α call txHash = (none, some (.remote er))) ∧
    (∀ (α : Type) (call : String → Except String (Option α)) (txHash : String) (r : α),
       call txHash = .ok (some r) →
       TransactionReceipt α call txHash = (some r, none)) := by
  refine ⟨?_, ?_, ?_⟩
  · intro α call txHash
    unfold TransactionReceipt
    cases hc : call txHash with
    | error e => simp
    | ok o => cases o <;> simp
  · intro α call txHash er h
    simp only [TransactionReceipt, h]
  · intro α call txHash r h
    simp only [TransactionReceipt, h]

/-- Witness for receipt_notfound_convention: a failed call surfaces as a
remote error, and a null receipt surfaces as not-found. -/
theorem receipt_notfound_convention_witness :
    TransactionReceipt Nat (fun _ => .error "node unreachable") "0xdead" =
      (none, some (.remote "node unreachable")) ∧
    TransactionReceipt Nat (fun _ => .ok none) "0xdead" = (none, some .notFound) :=
  ⟨receipt_notfound_convention.2.1 Nat (fun _ => .error "node unreachable") "0xdead"
      "node unreachable" rfl,
    by
      have h := (receipt_notfound_convention.1 Nat (fun _ => .ok none) "0xdead").mpr rfl
      unfold TransactionReceipt at h ⊢
      simp⟩

/-- Claim C9: signing is a pure deterministic function of the stored
private key and the string arguments alone: clients whose wallets hold
equal keys produce identical payloads whatever their RPC connection, and
a client built with an empty URL carries the very same wallet as a
connected one dialed to any URL. -/
theorem signing_pure_deterministic :
    (∀ (B : CryptoBackend) (w1 w2 : Wormholes) (data : List Nat) (pk : String),
       Wormholes.Sign B w1 data pk = Wormholes.Sign B w2 data pk) ∧
    (∀ (B : CryptoBackend) (w1 w2 : Wormholes) (a n e b s : String),
       w1.wallet.priKey = w2.wallet.priKey →
       Wormholes.SignBuyer B w1 a n e b s = Wormholes.SignBuyer B w2 a n e b s) ∧
    (∀ (B : CryptoBackend) (w1 w2 : Wormholes) (a n e b : String),
       w1.wallet.priKey = w2.wallet.priKey →
       Wormholes.SignSeller1 B w1 a n e b = Wormholes.SignSeller1 B w2 a n e b) ∧
    (∀ (B : CryptoBackend) (w1 w2 : Wormholes) (a r m x e b : String),
       w1.wallet.priKey = w2.wallet.priKey →
       Wormholes.SignSeller2 B w1 a r m x e b = Wormholes.SignSeller2 B w2 a r m x e b) ∧
    (∀ (B : CryptoBackend) (w1 w2 : Wormholes) (o t b : String),
       w1.wallet.priKey = w2.wallet.priKey →
       Wormholes.SignExchanger B w1 o t b = Wormholes.SignExchanger B w2 o t b) ∧
    (∀ (B : CryptoBackend) (w1 w2 : Wormholes) (d p : String),
       w1.wallet.priKey = w2.wallet.priKey →
       Wormholes.SignDelegate B w1 d p = Wormholes.SignDelegate B w2 d p) ∧
    (∀ (dial : String → Except String Nat) (k url : String) (c : Nat),
       url ≠ "" → dial url = .ok c →
       (newClient dial k url).wallet = (newClient dial k "").wallet ∧
       (newClient dial k url).c = some c ∧ (newClient dial k "").c = none) := by
  refine ⟨?_, ?_, ?_, ?_, ?_, ?_, ?_⟩
  · intro B w1 w2 data pk
    rfl
  · intro B w1 w2 a n e b s h
    unfold Wormholes.SignBuyer Wallet.SignBuyer
    rw [h]
  · intro B w1 w2 a n e b h
    unfold Wormholes.SignSeller1 Wallet.SignSeller1
    rw [h]
  · intro B w1 w2 a r m x e b h
    unfold Wormholes.SignSeller2 Wallet.SignSeller2
    rw [h]
  · intro B w1 w2 o t b h
    unfold Wormholes.SignExchanger Wallet.SignExchanger
    rw [h]
  · intro B w1 w2 d p h
    unfold Wormholes.SignDelegate Wallet.SignDelegate
    rw [h]
  · intro dial k url c hu hd
    refine ⟨?_, ?_, ?_⟩ <;> simp [newClient, hu, hd]

/-- Witness for signing_pure_deterministic: a wallet-only client and a
connected client holding the same key sign the buyer tuple identically,
and NewClient with a nonempty URL stores the same wallet as with an
empty one. -/
theorem signing_pure_deterministic_witness :
    Wormholes.SignBuyer testBackend ⟨⟨"4fc"⟩, none⟩ "0x1" "0x2" "0x3" "0x4" "" =
      Wormholes.SignBuyer testBackend ⟨⟨"4fc"⟩, some 3⟩ "0x1" "0x2" "0x3" "0x4" "" ∧
    (newClient (fun _ => Except.ok 3) "4fc" "http://x").wallet =
      (newClient (fun _ => Except.ok 3) "4fc" "").wallet :=
  ⟨signing_pure_deterministic.2.1 testBackend ⟨⟨"4fc"⟩, none⟩ ⟨⟨"4fc"⟩, some 3⟩
      "0x1" "0x2" "0x3" "0x4" "" rfl,
    (signing_pure_deterministic.2.2.2.2.2.2 (fun _ => Except.ok 3) "4fc" "http://x" 3
      (by decide) rfl).1⟩

/-- Claim C10: the pointer-returning query operations GetValidators,
GetAccountInfo and GetBlockBeneficiaryAddressByNumber never produce a
nil result together with a nil error, and each turns a successful call
with a null result into the not-found error, the same convention
TransactionReceipt follows. -/
theorem query_null_notfound :
    (∀ (α : Type) (call : Int → Except String (Option α)) (bn : Int),
       (GetValidators α call bn).1.isSome = true ∨
         (GetValidators α call bn).2.isSome = true) ∧
    (∀ (α : Type) (call : Int → Except String (Option α)) (bn : Int),
       (GetValidators α call bn).2 = some ClientErr.notFound ↔ call bn = .ok none) ∧
    (∀ (α : Type) (call : String → Int → Except String (Option α)) (addr : String) (bl : Int),
       (GetAccountInfo α call addr bl).1.isSome = true ∨
         (GetAccountInfo α call addr bl).2.isSome = true) ∧
    (∀ (α : Type) (call : String → Int → Except String (Option α)) (addr : String) (bl : Int),
       (GetAccountInfo α call addr bl).2 = some ClientErr.notFound ↔
         call addr bl = .ok none) ∧
    (∀ (α : Type) (call : Int → Except String (Option α)) (bl : Int),
       (GetBlockBeneficiaryAddressByNumber α call bl).1.isSome = true ∨
         (GetBlockBeneficiaryAddressByNumber α call bl).2.isSome = true) ∧
    (∀ (α : Type) (call : Int → Except String (Option α)) (bl : Int),
       (GetBlockBeneficiaryAddressByNumber α call bl).2 = some ClientErr.notFound ↔
         call bl = .ok none) := by
  refine ⟨?_, ?_, ?_, ?_, ?_, ?_⟩
  · intro α call bn
    unfold GetValidators
    cases call bn with
    | error e => simp
    | ok o => cases o <;> simp
  · intro α call bn
    unfold GetValidators
    cases hc : call bn with
    | error e => simp
    | ok o => cases o <;> simp
  · intro α call addr bl
    unfold GetAccountInfo
    cases call addr bl with
    | error e => simp
    | ok o => cases o <;> simp
  · intro α call addr bl
    unfold GetAccountInfo
    cases hc : call addr bl with
    | error e => simp
    | ok o => cases o <;> simp
  · intro α call bl
    unfold GetBlockBeneficiaryAddressByNumber
    cases call bl with
    | error e => simp
    | ok o => cases o <;> simp
  · intro α call bl
    unfold GetBlockBeneficiaryAddressByNumber
    cases hc : call bl with
    | error e => simp
    | ok o => cases o <;> simp

end ErbClient
